import Mathlib

/-!
Shallow embedding of `src/MIDIListener.py` (a background MIDI recorder):
the capture session, the save/discard decision, the track quantization,
the device discovery queries, and the per-message step of the capture loop.
Timestamps are rationals (seconds); the external file serializer's
seconds-to-ticks conversion is modelled over the rationals.
-/

namespace MIDIListener

/-- A decoded MIDI message as produced by the transport layer
(fields used by the program: `type` tag, `channel`, `note`, `velocity`,
and the `is_realtime` flag excluding clock/active-sensing messages). -/
structure MidiMsg where
  type : String
  channel : Nat
  note : Nat
  velocity : Nat
  is_realtime : Bool
deriving DecidableEq

/-- A message copied with an attached integer delta-tick `time` field,
as appended to the output track (`msg.copy(time=int(delta_ticks))`). -/
structure TrackMsg where
  msg : MidiMsg
  time : Int
deriving DecidableEq

/-- Constant `MIN_NOTES = 10` (line 18). -/
def MIN_NOTES : Nat := 10

/-- The mutable state of the `MidiRecorder` object relevant to capture:
the event buffer of `(msg, absolute_time)` pairs, `last_input_time`,
`note_on_count`, and `connected_port_name`.  Two observation fields record
the side effects of the loop: `files` is the list of track contents written
to disk by `mid.save`, and `log_signals` counts the
`root.after(0, show_log_window)` display-open requests. -/
structure MidiRecorder where
  buffer : List (MidiMsg × ℚ)
  last_input_time : ℚ
  note_on_count : Nat
  connected_port_name : Option String
  files : List (List TrackMsg)
  log_signals : Nat
deriving DecidableEq

/-- Python truthiness of an optional string: `None` and `""` are falsy. -/
def pyTruthy : Option String → Bool
  | none => false
  | some s => !(s == "")

/-- Python `int()` applied to a rational: truncation toward zero
(`Int.tdiv` of numerator by denominator). -/
def pyInt (q : ℚ) : Int :=
  q.num.tdiv (q.den : Int)

/-- Modelled from the spec (§6, external file-serializer collaborator;
`mido.second2tick` in the source, line 104): convert a duration in seconds
to ticks at `ticks_per_beat` resolution and `tempo` microseconds per beat:
`second / (tempo * 1e-6 / ticks_per_beat)`. -/
def second2tick (second : ℚ) (ticks_per_beat : Nat) (tempo : Nat) : ℚ :=
  second * (ticks_per_beat : ℚ) * 1000000 / (tempo : ℚ)

/-- The default ticks-per-beat resolution of a fresh `mido.MidiFile()`. -/
def ticksPerBeat : Nat := 480

/-- The loop of `save_buffer_to_file` lines 101-109: walk the buffer keeping
`last_time`, attach `int(second2tick(abs_time - last_time, tpb, 600000))`
to a copy of each message, in arrival order. -/
def buildTrackAux (tpb : Nat) : List (MidiMsg × ℚ) → ℚ → List TrackMsg
  | [], _ => []
  | (m, t) :: rest, last =>
      { msg := m, time := pyInt (second2tick (t - last) tpb 600000) } ::
        buildTrackAux tpb rest t

/-- Lines 98-109: `last_time` starts at the first event's timestamp
(`buffer[0][1] if buffer else 0`), so the first delta is zero. -/
def buildTrack (tpb : Nat) (buffer : List (MidiMsg × ℚ)) : List TrackMsg :=
  buildTrackAux tpb buffer (match buffer with | [] => 0 | (_, t) :: _ => t)

/-- Outcome of one `save_buffer_to_file` call: discarded with too few notes
(line 83), discarded with "no notes pressed" (line 89), or saved
(the written track and the logged note count, line 114). -/
inductive SaveOutcome where
  | discarded_too_few (count : Nat)
  | discarded_no_notes
  | saved (track : List TrackMsg) (note_count : Nat)
deriving DecidableEq

/-- Whether the outcome wrote a file. -/
def SaveOutcome.isSaved : SaveOutcome → Bool
  | .saved _ _ => true
  | _ => false

/-- Function `save_buffer_to_file(force=False)`, lines 81-117: discard when
`note_on_count < MIN_NOTES and not force`; discard when
`note_on_count <= 3`; otherwise build the delta-ticked track, write it
(recorded in `files`), then clear the buffer and zero the count. -/
def save_buffer_to_file (r : MidiRecorder) (force : Bool) :
    MidiRecorder × SaveOutcome :=
  if r.note_on_count < MIN_NOTES ∧ force = false then
    ({ r with buffer := [], note_on_count := 0 },
      SaveOutcome.discarded_too_few r.note_on_count)
  else if r.note_on_count ≤ 3 then
    ({ r with buffer := [], note_on_count := 0 },
      SaveOutcome.discarded_no_notes)
  else
    ({ r with
        buffer := []
        note_on_count := 0
        files := r.files ++ [buildTrack ticksPerBeat r.buffer] },
      SaveOutcome.saved (buildTrack ticksPerBeat r.buffer) r.note_on_count)

/-- Function `find_midi_input`, lines 37-47: with a truthy configured
`MIDI_PORT_NAME`, return it exactly when it is in the enumeration,
otherwise `None` (no fallback); with no configured name, return the first
enumerated input, or `None` when the enumeration is empty. -/
def find_midi_input (midi_port_name : Option String) (inputs : List String) :
    Option String :=
  if pyTruthy midi_port_name then
    match midi_port_name with
    | some nm => if inputs.contains nm then some nm else none
    | none => none
  else
    inputs.head?

/-- Function `is_port_still_available`, lines 73-79: false when
`connected_port_name` is falsy, else membership of the recorded name in
the current enumeration. -/
def is_port_still_available (r : MidiRecorder) (available_ports : List String) :
    Bool :=
  if pyTruthy r.connected_port_name then
    match r.connected_port_name with
    | some nm => available_ports.contains nm
    | none => false
  else
    false

/-- Function `open_midi_input`, lines 59-71: pick a candidate with
`find_midi_input` (result `none` here models blocking in
`wait_for_midi_connection` when no candidate exists); record it in
`connected_port_name` BEFORE attempting `mido.open_input`; the second
component is the open handle, `none` when the open raised (the exception
propagates and the outer handler leaves the port unset). -/
def open_midi_input (midi_port_name : Option String) (inputs : List String)
    (r : MidiRecorder) (open_succeeds : Bool) :
    Option (MidiRecorder × Option String) :=
  match find_midi_input midi_port_name inputs with
  | none => none
  | some port_name =>
      let r' := { r with connected_port_name := some port_name }
      some (r', if open_succeeds then some port_name else none)

/-- The state carried by the inner polling loop: the recorder object plus
the loop-local consecutive-trigger counter `note36` (initialized to `0` at
line 161 each time the inner loop is entered). -/
structure LoopState where
  recorder : MidiRecorder
  note36 : Nat
deriving DecidableEq

/-- The condition of the trigger branch at line 179 for one incoming
message: a non-realtime `note_on` with positive velocity on pitch 36
arriving while `note36 >= 2`. -/
def TriggerFires (ls : LoopState) (m : MidiMsg) : Prop :=
  m.is_realtime = false ∧ m.type = "note_on" ∧ 0 < m.velocity ∧
    m.note = 36 ∧ 2 ≤ ls.note36

instance (ls : LoopState) (m : MidiMsg) : Decidable (TriggerFires ls m) := by
  unfold TriggerFires
  exact inferInstance

/-- One message of the drain loop, lines 172-187: skip realtime messages;
append `(msg, now)` to the buffer and update `last_input_time`; for a
`note_on` with positive velocity, increment `note_on_count`, then either
fire the trigger (`note == 36 and note36 >= 2`: forced save followed by a
display-open signal, `note36` untouched), or increment `note36`
(`note == 36`), or reset `note36` to 0 (any other pitch). -/
def process_msg (ls : LoopState) (m : MidiMsg) (now : ℚ) : LoopState :=
  if m.is_realtime then ls
  else
    let r1 := { ls.recorder with
                  buffer := ls.recorder.buffer ++ [(m, now)],
                  last_input_time := now }
    if m.type = "note_on" ∧ 0 < m.velocity then
      let r2 := { r1 with note_on_count := r1.note_on_count + 1 }
      if m.note = 36 ∧ 2 ≤ ls.note36 then
        let r3 := (save_buffer_to_file r2 true).1
        { recorder := { r3 with log_signals := r3.log_signals + 1 },
          note36 := ls.note36 }
      else if m.note = 36 then
        { recorder := r2, note36 := ls.note36 + 1 }
      else
        { recorder := r2, note36 := 0 }
    else
      { recorder := r1, note36 := ls.note36 }

/-- Draining all pending messages in one tick (`for msg in
port.iter_pending()`): fold `process_msg` over the pending
`(message, arrival_time)` pairs in order. -/
def drain (ls : LoopState) (evs : List (MidiMsg × ℚ)) : LoopState :=
  evs.foldl (fun st p => process_msg st p.1 p.2) ls

/-- A note-start: non-realtime `note_on` with velocity strictly above 0
(the messages counted at line 177). -/
def isNoteStart (m : MidiMsg) : Bool :=
  !m.is_realtime && (m.type == "note_on") && decide (0 < m.velocity)

/-- The note-start messages of a drained sequence, in order. -/
def noteStarts (evs : List (MidiMsg × ℚ)) : List MidiMsg :=
  (evs.map Prod.fst).filter isNoteStart

/-- One message of the trailing-run count: a pitch-36 message extends the
run, any other pitch restarts it. -/
def runStep (acc : Nat) (m : MidiMsg) : Nat :=
  if m.note = 36 then acc + 1 else 0

/-- Length of the trailing run of consecutive pitch-36 messages. -/
def run36 (ms : List MidiMsg) : Nat :=
  ms.foldl runStep 0

/-- How one note-start moves the `note36` counter (lines 179-186): at a
pitch-36 note-start the counter saturates at 2 once the trigger region is
reached (the trigger branch leaves it untouched), otherwise increments;
any other pitch resets it to 0. -/
def note36Step (a : Nat) (m : MidiMsg) : Nat :=
  if m.note = 36 then (if 2 ≤ a then a else a + 1) else 0

/-- Whether draining `evs` from `ls` never enters the trigger branch
(no forced save occurs during the drain). -/
def drainTriggerFreeB (ls : LoopState) : List (MidiMsg × ℚ) → Bool
  | [] => true
  | (m, t) :: rest =>
      !(decide (TriggerFires ls m)) && drainTriggerFreeB (process_msg ls m t) rest

/-- Lines 172-206: an `IoError` is raised after `k` pending messages were
drained; the handler at line 198 logs the error, closes the port, sets
`port = None` and breaks back to the outer (discovery) loop, leaving the
recorder state exactly as it stood at the failure. The second component is
the port variable after the handler. -/
def drain_io_error (ls : LoopState) (evs : List (MidiMsg × ℚ)) (k : Nat) :
    LoopState × Option String :=
  (drain ls (evs.take k), none)

/-- The recorder as `__init__` builds it (lines 22-28), at start time `t0`. -/
def initRecorder (t0 : ℚ) : MidiRecorder :=
  { buffer := []
    last_input_time := t0
    note_on_count := 0
    connected_port_name := none
    files := []
    log_signals := 0 }

/-- Loop state on entering the inner loop right after startup: fresh
recorder, `note36 = 0`. -/
def initLS (t0 : ℚ) : LoopState :=
  { recorder := initRecorder t0, note36 := 0 }

/-- A note-start press of the trigger pitch 36 at velocity 100. -/
def t36 : MidiMsg :=
  { type := "note_on", channel := 0, note := 36, velocity := 100,
    is_realtime := false }

/-- A note-start press of pitch 10 at velocity 100. -/
def t10 : MidiMsg :=
  { type := "note_on", channel := 0, note := 10, velocity := 100,
    is_realtime := false }

/-- Default message, for `List.getD` in theorem statements. -/
def defMsg : MidiMsg :=
  { type := "", channel := 0, note := 0, velocity := 0, is_realtime := false }

/-- Default buffered pair, for `List.getD`. -/
def defPair : MidiMsg × ℚ := (defMsg, 0)

/-- Default track message, for `List.getD`. -/
def defTrack : TrackMsg := { msg := defMsg, time := 0 }

/-- The recorder after `open_midi_input` picked the sole device "dev" and
`mido.open_input` raised: the name is recorded, no handle is open. -/
def recAfterFailedOpen : MidiRecorder :=
  { initRecorder 0 with connected_port_name := some "dev" }

/-- A recorder holding two buffered pitch-10 presses one second apart and
ten counted note-starts (a saveable take). -/
def wRec : MidiRecorder :=
  { initRecorder 0 with buffer := [(t10, 0), (t10, 1)], note_on_count := 10 }

/-! ## Theorems -/

/-- Every branch of `save_buffer_to_file` clears the buffer and zeroes the
count (lines 84-85, 90-91, 116-117). -/
theorem save_resets (r : MidiRecorder) (force : Bool) :
    (save_buffer_to_file r force).1.buffer = [] ∧
    (save_buffer_to_file r force).1.note_on_count = 0 := by
  rw [save_buffer_to_file]
  split
  · exact ⟨rfl, rfl⟩
  · split
    · exact ⟨rfl, rfl⟩
    · exact ⟨rfl, rfl⟩

/-- Saving touches neither the log-signal counter nor the
recorded port name nor `last_input_time`. -/
theorem save_preserves (r : MidiRecorder) (force : Bool) :
    (save_buffer_to_file r force).1.log_signals = r.log_signals ∧
    (save_buffer_to_file r force).1.last_input_time = r.last_input_time ∧
    (save_buffer_to_file r force).1.connected_port_name
      = r.connected_port_name := by
  rw [save_buffer_to_file]
  split
  · exact ⟨rfl, rfl, rfl⟩
  · split
    · exact ⟨rfl, rfl, rfl⟩
    · exact ⟨rfl, rfl, rfl⟩

/-- A forced save with more than three counted note-starts writes a file:
the delta-ticked track of the buffer is appended to the written files. -/
theorem save_forced_files_save (r : MidiRecorder) (h3 : 3 < r.note_on_count) :
    (save_buffer_to_file r true).1.files
      = r.files ++ [buildTrack ticksPerBeat r.buffer] := by
  rw [save_buffer_to_file, if_neg (by rintro ⟨-, h⟩; cases h),
    if_neg (by omega)]

/-- A forced save with at most three counted note-starts discards:
no file is written (line 88). -/
theorem save_forced_files_discard (r : MidiRecorder)
    (h3 : r.note_on_count ≤ 3) :
    (save_buffer_to_file r true).1.files = r.files := by
  rw [save_buffer_to_file, if_neg (by rintro ⟨-, h⟩; cases h), if_pos h3]

/-- A realtime message is skipped entirely (line 173). -/
theorem process_msg_realtime (ls : LoopState) (m : MidiMsg) (now : ℚ)
    (h : m.is_realtime = true) : process_msg ls m now = ls := by
  rw [process_msg, if_pos h]

/-- A non-realtime message that is not a note-start is buffered and
nothing else changes. -/
theorem process_msg_other (ls : LoopState) (m : MidiMsg) (now : ℚ)
    (h : m.is_realtime = false)
    (h2 : ¬(m.type = "note_on" ∧ 0 < m.velocity)) :
    process_msg ls m now =
      { recorder :=
          { ls.recorder with
              buffer := ls.recorder.buffer ++ [(m, now)]
              last_input_time := now }
        note36 := ls.note36 } := by
  rw [process_msg, if_neg (by simp [h]), if_neg h2]

/-- A note-start that does not fire the trigger is buffered and counted,
and moves `note36`: increment at pitch 36, reset to 0 otherwise. -/
theorem process_msg_start_nofire (ls : LoopState) (m : MidiMsg) (now : ℚ)
    (h : m.is_realtime = false) (ht : m.type = "note_on")
    (hv : 0 < m.velocity) (hnf : ¬(m.note = 36 ∧ 2 ≤ ls.note36)) :
    process_msg ls m now =
      { recorder :=
          { ls.recorder with
              buffer := ls.recorder.buffer ++ [(m, now)]
              last_input_time := now
              note_on_count := ls.recorder.note_on_count + 1 }
        note36 := if m.note = 36 then ls.note36 + 1 else 0 } := by
  by_cases hn : m.note = 36
  · have h2 : ¬ 2 ≤ ls.note36 := fun hh => hnf ⟨hn, hh⟩
    rw [process_msg, if_neg (by simp [h]), if_pos ⟨ht, hv⟩, if_neg hnf,
      if_pos hn, if_pos hn]
  · rw [process_msg, if_neg (by simp [h]), if_pos ⟨ht, hv⟩, if_neg hnf,
      if_neg hn, if_neg hn]

/-- A firing trigger press is buffered and counted FIRST, then the forced
save runs on that state and a display-open signal is emitted; `note36` is
left untouched. -/
theorem process_msg_fire (ls : LoopState) (m : MidiMsg) (now : ℚ)
    (hT : TriggerFires ls m) :
    process_msg ls m now =
      { recorder :=
          { (save_buffer_to_file
              { ls.recorder with
                  buffer := ls.recorder.buffer ++ [(m, now)]
                  last_input_time := now
                  note_on_count := ls.recorder.note_on_count + 1 } true).1 with
            log_signals :=
              (save_buffer_to_file
                { ls.recorder with
                    buffer := ls.recorder.buffer ++ [(m, now)]
                    last_input_time := now
                    note_on_count := ls.recorder.note_on_count + 1 } true).1.log_signals
                + 1 }
        note36 := ls.note36 } := by
  obtain ⟨h1, h2, h3, h4, h5⟩ := hT
  rw [process_msg, if_neg (by simp [h1]), if_pos ⟨h2, h3⟩, if_pos ⟨h4, h5⟩]

/-- Draining an empty pending list is the identity. -/
theorem drain_nil (ls : LoopState) : drain ls [] = ls := rfl

/-- Draining peels one pending message at a time. -/
theorem drain_cons (ls : LoopState) (m : MidiMsg) (t : ℚ)
    (rest : List (MidiMsg × ℚ)) :
    drain ls ((m, t) :: rest) = drain (process_msg ls m t) rest := rfl

/-- C1: a `save_buffer_to_file` call with `force=false` and
`note_on_count < 10` discards and writes no file; with `force=true` and
`note_on_count` in `4..9` it writes a file; with `note_on_count <= 3` it
discards for every value of `force`. -/
theorem save_gate (r : MidiRecorder) :
    (r.note_on_count < MIN_NOTES →
      (save_buffer_to_file r false).2.isSaved = false ∧
      (save_buffer_to_file r false).1.files = r.files) ∧
    (4 ≤ r.note_on_count → r.note_on_count ≤ 9 →
      (save_buffer_to_file r true).2.isSaved = true ∧
      (save_buffer_to_file r true).1.files
        = r.files ++ [buildTrack ticksPerBeat r.buffer]) ∧
    (∀ force, r.note_on_count ≤ 3 →
      (save_buffer_to_file r force).2.isSaved = false ∧
      (save_buffer_to_file r force).1.files = r.files) := by
  refine ⟨fun h => ?_, fun h4 h9 => ?_, fun force h3 => ?_⟩
  · rw [save_buffer_to_file, if_pos ⟨h, rfl⟩]
    exact ⟨rfl, rfl⟩
  · rw [save_buffer_to_file, if_neg (by rintro ⟨-, h⟩; cases h),
      if_neg (by omega)]
    exact ⟨rfl, rfl⟩
  · cases force with
    | false =>
        rw [save_buffer_to_file, if_pos ⟨by simp only [MIN_NOTES]; omega, rfl⟩]
        exact ⟨rfl, rfl⟩
    | true =>
        rw [save_buffer_to_file, if_neg (by rintro ⟨-, h⟩; cases h), if_pos h3]
        exact ⟨rfl, rfl⟩

/-- Witness for C1 at note counts 5 (discard unforced / save forced) and
3 (discard both ways). -/
theorem save_gate_witness :
    ((save_buffer_to_file { initRecorder 0 with note_on_count := 5 } false).2.isSaved
        = false ∧
      (save_buffer_to_file { initRecorder 0 with note_on_count := 5 } true).2.isSaved
        = true ∧
      (save_buffer_to_file { initRecorder 0 with note_on_count := 3 } true).2.isSaved
        = false) := by
  refine ⟨((save_gate _).1 (by decide)).1,
    ((save_gate _).2.1 (by decide) (by decide)).1,
    ((save_gate _).2.2 true (by decide)).1⟩

/-- C4: every `save_buffer_to_file` call, saving or discarding, leaves the
buffer empty and `note_on_count` at 0. -/
theorem save_clears (r : MidiRecorder) (force : Bool) :
    (save_buffer_to_file r force).1.buffer = [] ∧
    (save_buffer_to_file r force).1.note_on_count = 0 :=
  save_resets r force

/-- C7: `find_midi_input` is a pure query over the enumeration: a
configured (truthy) preferred name is returned exactly when present and
never replaced by a fallback; with no configured name the first
enumerated input (or `none` on an empty enumeration) is returned. -/
theorem find_midi_input_spec (midi_port_name : Option String)
    (inputs : List String) :
    (∀ nm, midi_port_name = some nm → nm ≠ "" →
      find_midi_input midi_port_name inputs
        = (if inputs.contains nm then some nm else none)) ∧
    (midi_port_name = none →
      find_midi_input midi_port_name inputs = inputs.head?) := by
  constructor
  · rintro nm rfl hnm
    simp [find_midi_input, pyTruthy, hnm]
  · rintro rfl
    rfl

/-- Witness for C7: preferred name present, preferred name absent
(no fallback), unconfigured with and without devices. -/
theorem find_midi_input_witness :
    find_midi_input (some "P") ["A", "P"] = some "P" ∧
    find_midi_input (some "P") ["A"] = none ∧
    find_midi_input none ["A", "P"] = some "A" ∧
    find_midi_input none ([] : List String) = none := by
  refine ⟨?_, ?_, ?_, ?_⟩
  · have h := (find_midi_input_spec (some "P") ["A", "P"]).1 "P" rfl (by decide)
    simpa using h
  · have h := (find_midi_input_spec (some "P") ["A"]).1 "P" rfl (by decide)
    simpa using h
  · exact (find_midi_input_spec none ["A", "P"]).2 rfl
  · exact (find_midi_input_spec none []).2 rfl

/-- C9 counterexample: a failed open (lines 59-71) records the port name
before the open attempt, so with no connection handle open at all,
`is_port_still_available` reports `true` while the device stays
enumerable — refuting "false whenever no connection is open". -/
theorem port_check_no_connection_cex :
    open_midi_input none ["dev"] (initRecorder 0) false
      = some (recAfterFailedOpen, none) ∧
    is_port_still_available recAfterFailedOpen ["dev"] = true := by
  exact ⟨rfl, rfl⟩

/-- C9 amended: `is_port_still_available` is false whenever no port NAME
has been recorded (`connected_port_name` is `None`); the recorded name,
not the open handle, is what the check consults. -/
theorem port_check_requires_recorded_name (r : MidiRecorder)
    (ports : List String) (h : r.connected_port_name = none) :
    is_port_still_available r ports = false := by
  rw [is_port_still_available, h]
  rfl

/-- Witness for the amended C9 at the freshly constructed recorder. -/
theorem port_check_requires_recorded_name_witness :
    is_port_still_available (initRecorder 0) ["dev"] = false :=
  port_check_requires_recorded_name (initRecorder 0) ["dev"] rfl

/-- The filter step of `noteStarts` on a cons. -/
theorem noteStarts_cons (m : MidiMsg) (t : ℚ) (rest : List (MidiMsg × ℚ)) :
    noteStarts ((m, t) :: rest)
      = if isNoteStart m then m :: noteStarts rest else noteStarts rest := by
  simp only [noteStarts, List.map_cons, List.filter]
  split
  · next hcond => rw [if_pos hcond]
  · next hcond => rw [if_neg (by simpa using hcond)]

/-- The `note36` counter after a drain is the `note36Step` fold of the
drained note-starts over its initial value: only note-starts move it. -/
theorem drain_note36 (evs : List (MidiMsg × ℚ)) : ∀ ls : LoopState,
    (drain ls evs).note36 = (noteStarts evs).foldl note36Step ls.note36 := by
  induction evs with
  | nil => intro ls; rfl
  | cons p rest ih =>
      intro ls
      obtain ⟨m, t⟩ := p
      rw [drain_cons, ih, noteStarts_cons]
      by_cases hr : m.is_realtime = true
      · rw [process_msg_realtime ls m t hr,
          if_neg (by simp [isNoteStart, hr])]
      · have hr' : m.is_realtime = false := by simpa using hr
        by_cases hs : m.type = "note_on" ∧ 0 < m.velocity
        · obtain ⟨ht, hv⟩ := hs
          have hstart : isNoteStart m = true := by
            simp [isNoteStart, hr', ht, hv]
          rw [if_pos hstart, List.foldl_cons]
          by_cases hfire : m.note = 36 ∧ 2 ≤ ls.note36
          · rw [process_msg_fire ls m t ⟨hr', ht, hv, hfire.1, hfire.2⟩]
            simp [note36Step, hfire.1, hfire.2]
          · rw [process_msg_start_nofire ls m t hr' ht hv hfire]
            by_cases hn : m.note = 36
            · have h2 : ¬ 2 ≤ ls.note36 := fun hh => hfire ⟨hn, hh⟩
              simp [note36Step, hn, h2]
            · simp [note36Step, hn]
        · have hstart : isNoteStart m = false := by
            rcases not_and_or.mp hs with h | h
            · simp [isNoteStart, h]
            · simp [isNoteStart, Nat.eq_zero_of_not_pos h]
          rw [if_neg (by simp [hstart]), process_msg_other ls m t hr' hs]

/-- Folding `note36Step` from a value clamped at 2 computes the clamp of
the plain trailing-run fold. -/
theorem foldl_note36Step_min (ms : List MidiMsg) : ∀ a b : Nat, a = min 2 b →
    ms.foldl note36Step a = min 2 (ms.foldl runStep b) := by
  induction ms with
  | nil => intro a b h; simpa using h
  | cons m rest ih =>
      intro a b h
      rw [List.foldl_cons, List.foldl_cons]
      apply ih
      subst h
      by_cases hn : m.note = 36
      · simp only [note36Step, runStep, if_pos hn]
        split <;> omega
      · simp [note36Step, runStep, hn]

/-- From an inner-loop entry state (`note36 = 0`), the counter after a
drain is the trailing consecutive-36 run length of the drained
note-starts, clamped at 2. -/
theorem drain_note36_run (ls : LoopState) (evs : List (MidiMsg × ℚ))
    (h0 : ls.note36 = 0) :
    (drain ls evs).note36 = min 2 (run36 (noteStarts evs)) := by
  rw [drain_note36, h0, run36]
  exact foldl_note36Step_min (noteStarts evs) 0 0 rfl

/-- A trigger-free drain only appends: the buffer gains exactly the
non-realtime messages in order, the count gains exactly the number of
note-starts, and no file or display signal is produced. -/
theorem drain_nofire (evs : List (MidiMsg × ℚ)) : ∀ ls : LoopState,
    drainTriggerFreeB ls evs = true →
    (drain ls evs).recorder.buffer
      = ls.recorder.buffer ++ evs.filter (fun p => !p.1.is_realtime) ∧
    (drain ls evs).recorder.note_on_count
      = ls.recorder.note_on_count + (noteStarts evs).length ∧
    (drain ls evs).recorder.files = ls.recorder.files ∧
    (drain ls evs).recorder.log_signals = ls.recorder.log_signals := by
  induction evs with
  | nil => intro ls _; simp [drain_nil, noteStarts]
  | cons p rest ih =>
      intro ls h
      obtain ⟨m, t⟩ := p
      rw [drainTriggerFreeB, Bool.and_eq_true, Bool.not_eq_true',
        decide_eq_false_iff_not] at h
      obtain ⟨hnT, hrest⟩ := h
      obtain ⟨s1, s2, s3, s4⟩ := ih (process_msg ls m t) hrest
      rw [drain_cons, noteStarts_cons]
      by_cases hr : m.is_realtime = true
      · have hp : process_msg ls m t = ls := process_msg_realtime ls m t hr
        rw [hp] at s1 s2 s3 s4
        have hf : (fun p : MidiMsg × ℚ => !p.1.is_realtime) (m, t) = false := by
          simp [hr]
        rw [hp, List.filter_cons_of_neg (by simpa using hf),
          if_neg (by simp [isNoteStart, hr])]
        exact ⟨s1, s2, s3, s4⟩
      · have hr' : m.is_realtime = false := by simpa using hr
        have hf : (fun p : MidiMsg × ℚ => !p.1.is_realtime) (m, t) = true := by
          simp [hr']
        rw [List.filter_cons_of_pos (by simpa using hf)]
        by_cases hs : m.type = "note_on" ∧ 0 < m.velocity
        · obtain ⟨ht, hv⟩ := hs
          have hstart : isNoteStart m = true := by
            simp [isNoteStart, hr', ht, hv]
          have hfire : ¬(m.note = 36 ∧ 2 ≤ ls.note36) := by
            intro hh
            exact hnT ⟨hr', ht, hv, hh.1, hh.2⟩
          have hb : (process_msg ls m t).recorder.buffer
              = ls.recorder.buffer ++ [(m, t)] := by
            rw [process_msg_start_nofire ls m t hr' ht hv hfire]
          have hc : (process_msg ls m t).recorder.note_on_count
              = ls.recorder.note_on_count + 1 := by
            rw [process_msg_start_nofire ls m t hr' ht hv hfire]
          have hfi : (process_msg ls m t).recorder.files = ls.recorder.files := by
            rw [process_msg_start_nofire ls m t hr' ht hv hfire]
          have hl : (process_msg ls m t).recorder.log_signals
              = ls.recorder.log_signals := by
            rw [process_msg_start_nofire ls m t hr' ht hv hfire]
          rw [if_pos hstart]
          refine ⟨?_, ?_, by rw [s3, hfi], by rw [s4, hl]⟩
          · rw [s1, hb]
            simp
          · rw [s2, hc, List.length_cons]
            omega
        · have hstart : isNoteStart m = false := by
            rcases not_and_or.mp hs with h | h
            · simp [isNoteStart, h]
            · simp [isNoteStart, Nat.eq_zero_of_not_pos h]
          have hb : (process_msg ls m t).recorder.buffer
              = ls.recorder.buffer ++ [(m, t)] := by
            rw [process_msg_other ls m t hr' hs]
          have hc : (process_msg ls m t).recorder.note_on_count
              = ls.recorder.note_on_count := by
            rw [process_msg_other ls m t hr' hs]
          have hfi : (process_msg ls m t).recorder.files = ls.recorder.files := by
            rw [process_msg_other ls m t hr' hs]
          have hl : (process_msg ls m t).recorder.log_signals
              = ls.recorder.log_signals := by
            rw [process_msg_other ls m t hr' hs]
          rw [if_neg (by simp [hstart])]
          refine ⟨?_, by rw [s2, hc], by rw [s3, hfi], by rw [s4, hl]⟩
          rw [s1, hb]
          simp

/-- C2: after draining `evs` from an inner-loop entry state
(`note36 = 0`), a further pitch-36 note-start fires the trigger exactly
when the trailing run of consecutive pitch-36 note-starts in `evs` already
has length at least 2 — i.e. on the third and every later note-start of an
unbroken 36-run (a run broken by a different pitch restarts the count);
and firing performs the forced save of the buffer (buffer emptied, count
zeroed, a file written exactly when more than three note-starts were
counted) and emits a display-open signal. -/
theorem trigger_third_consecutive (ls : LoopState) (evs : List (MidiMsg × ℚ))
    (m : MidiMsg) (now : ℚ) (h0 : ls.note36 = 0)
    (hr : m.is_realtime = false) (ht : m.type = "note_on")
    (hv : 0 < m.velocity) (hn : m.note = 36) :
    (TriggerFires (drain ls evs) m ↔ 2 ≤ run36 (noteStarts evs)) ∧
    (TriggerFires (drain ls evs) m →
      (process_msg (drain ls evs) m now).recorder.buffer = [] ∧
      (process_msg (drain ls evs) m now).recorder.note_on_count = 0 ∧
      (process_msg (drain ls evs) m now).recorder.log_signals
        = (drain ls evs).recorder.log_signals + 1 ∧
      (3 < (drain ls evs).recorder.note_on_count + 1 →
        (process_msg (drain ls evs) m now).recorder.files
          = (drain ls evs).recorder.files
              ++ [buildTrack ticksPerBeat
                    ((drain ls evs).recorder.buffer ++ [(m, now)])]) ∧
      ((drain ls evs).recorder.note_on_count + 1 ≤ 3 →
        (process_msg (drain ls evs) m now).recorder.files
          = (drain ls evs).recorder.files)) := by
  have hrun := drain_note36_run ls evs h0
  constructor
  · constructor
    · rintro ⟨-, -, -, -, h2⟩
      rw [hrun] at h2
      omega
    · intro h2
      exact ⟨hr, ht, hv, hn, by rw [hrun]; omega⟩
  · intro hT
    rw [process_msg_fire (drain ls evs) m now hT]
    refine ⟨(save_resets _ _).1, (save_resets _ _).2, ?_, ?_, ?_⟩
    · simp only [(save_preserves _ _).1]
    · intro h3
      exact save_forced_files_save _ h3
    · intro h3
      exact save_forced_files_discard _ h3

/-- Witness for C2: two consecutive trigger presses arm the trigger, a
third press fires it and emits one display-open signal. -/
theorem trigger_third_consecutive_witness :
    TriggerFires (drain (initLS 0) [(t36, 1), (t36, 2)]) t36 ∧
    (process_msg (drain (initLS 0) [(t36, 1), (t36, 2)]) t36 3).recorder.log_signals
      = (drain (initLS 0) [(t36, 1), (t36, 2)]).recorder.log_signals + 1 := by
  have h := trigger_third_consecutive (initLS 0) [(t36, 1), (t36, 2)] t36 3
    rfl rfl rfl (by decide) rfl
  have hT : TriggerFires (drain (initLS 0) [(t36, 1), (t36, 2)]) t36 :=
    h.1.mpr (by decide)
  exact ⟨hT, (h.2 hT).2.2.1⟩

/-- C3 counterexample: after the trigger fires on the third consecutive
pitch-36 press, `note36` is NOT reset to 0 — it stays at 2, and the very
next pitch-36 note-start fires the trigger again (three further presses
are not required). -/
theorem note36_not_reset_cex :
    (drain (initLS 0) [(t36, 1), (t36, 2), (t36, 3)]).note36 = 2 ∧
    TriggerFires (drain (initLS 0) [(t36, 1), (t36, 2), (t36, 3)]) t36 := by
  decide

/-- C3 amended: `note36` is reset to 0 whenever a note-start on a pitch
other than 36 is received, but the trigger branch leaves it unchanged
(hence still at least 2), so after a fire a single further consecutive
pitch-36 note-start fires the trigger again. -/
theorem note36_reset_on_other_only (ls : LoopState) (m : MidiMsg) (now : ℚ) :
    (m.is_realtime = false → m.type = "note_on" → 0 < m.velocity →
      m.note ≠ 36 → (process_msg ls m now).note36 = 0) ∧
    (TriggerFires ls m →
      (process_msg ls m now).note36 = ls.note36 ∧
      2 ≤ (process_msg ls m now).note36 ∧
      TriggerFires (process_msg ls m now) m) := by
  constructor
  · intro hr ht hv hn
    rw [process_msg_start_nofire ls m now hr ht hv (by rintro ⟨h, -⟩; exact hn h),
      if_neg hn]
  · intro hT
    have heq : (process_msg ls m now).note36 = ls.note36 := by
      rw [process_msg_fire ls m now hT]
    obtain ⟨h1, h2, h3, h4, h5⟩ := hT
    exact ⟨heq, by rw [heq]; exact h5, h1, h2, h3, h4, by rw [heq]; exact h5⟩

/-- Witness for the amended C3: a pitch-10 note-start resets the counter;
a fire from `note36 = 2` leaves it at 2. -/
theorem note36_reset_on_other_only_witness :
    (process_msg (initLS 0) t10 1).note36 = 0 ∧
    (process_msg { recorder := initRecorder 0, note36 := 2 } t36 1).note36 = 2 :=
  ⟨(note36_reset_on_other_only (initLS 0) t10 1).1 rfl rfl (by decide) (by decide),
    ((note36_reset_on_other_only
      { recorder := initRecorder 0, note36 := 2 } t36 1).2 (by decide)).1⟩

/-- C5 counterexample: draining three consecutive trigger presses fires a
forced save mid-drain which zeroes `note_on_count`, so the count after the
drain (0) is not the count before plus the number of drained note-starts
(3). -/
theorem drain_count_cex :
    ¬ ((drain (initLS 0) [(t36, 1), (t36, 2), (t36, 3)]).recorder.note_on_count
        = (initLS 0).recorder.note_on_count
            + (noteStarts [(t36, 1), (t36, 2), (t36, 3)]).length) := by
  decide

/-- C5 amended: provided no trigger save fires during the drain,
`note_on_count` after draining equals its value before plus the number of
drained `note_on` events with positive velocity (realtime messages and
zero-velocity `note_on`s are not counted). -/
theorem drain_count_no_trigger (ls : LoopState) (evs : List (MidiMsg × ℚ))
    (h : drainTriggerFreeB ls evs = true) :
    (drain ls evs).recorder.note_on_count
      = ls.recorder.note_on_count + (noteStarts evs).length :=
  (drain_nofire evs ls h).2.1

/-- Witness for the amended C5: a realtime clock, two note-starts on
different pitches and a zero-velocity `note_on` add exactly 2 to the
count. -/
theorem drain_count_no_trigger_witness :
    drainTriggerFreeB (initLS 0)
      [({ t10 with is_realtime := true }, 1), (t10, 2), (t36, 3),
        ({ t10 with velocity := 0 }, 4)] = true ∧
    (drain (initLS 0)
      [({ t10 with is_realtime := true }, 1), (t10, 2), (t36, 3),
        ({ t10 with velocity := 0 }, 4)]).recorder.note_on_count
      = (initLS 0).recorder.note_on_count + 2 :=
  ⟨by decide, drain_count_no_trigger (initLS 0) _ (by decide)⟩

/-- C8: when an `IoError` interrupts the drain after `k` pending messages,
the handler closes the connection (port set to `None`, back to discovery)
and leaves the partially-drained recorder exactly as it stood; in
particular, for a trigger-free prefix, every event appended before the
failure is retained in order and `note_on_count` keeps all its
increments — nothing is rolled back. -/
theorem io_error_retains (ls : LoopState) (evs : List (MidiMsg × ℚ)) (k : Nat)
    (h : drainTriggerFreeB ls (evs.take k) = true) :
    (drain_io_error ls evs k).2 = none ∧
    (drain_io_error ls evs k).1 = drain ls (evs.take k) ∧
    (drain_io_error ls evs k).1.recorder.buffer
      = ls.recorder.buffer ++ (evs.take k).filter (fun p => !p.1.is_realtime) ∧
    (drain_io_error ls evs k).1.recorder.note_on_count
      = ls.recorder.note_on_count + (noteStarts (evs.take k)).length :=
  ⟨rfl, rfl, (drain_nofire (evs.take k) ls h).1,
    (drain_nofire (evs.take k) ls h).2.1⟩

/-- Witness for C8: failure after draining two of three pending messages
keeps both appended events and both count increments, with the port
closed. -/
theorem io_error_retains_witness :
    (drain_io_error (initLS 0) [(t10, 1), (t36, 2), (t10, 3)] 2).2 = none ∧
    (drain_io_error (initLS 0) [(t10, 1), (t36, 2), (t10, 3)] 2).1.recorder.buffer
      = (initLS 0).recorder.buffer
          ++ ([(t10, 1), (t36, 2), (t10, 3)].take 2).filter
               (fun p => !p.1.is_realtime) ∧
    (drain_io_error (initLS 0) [(t10, 1), (t36, 2), (t10, 3)] 2).1.recorder.note_on_count
      = (initLS 0).recorder.note_on_count
          + (noteStarts ([(t10, 1), (t36, 2), (t10, 3)].take 2)).length := by
  have h := io_error_retains (initLS 0) [(t10, 1), (t36, 2), (t10, 3)] 2
    (by decide)
  exact ⟨h.1, h.2.2.1, h.2.2.2⟩

/-- C10: a trigger press is appended and counted before the forced save it
causes: from a state with `note_on_count = 0` and `note36 = 0`, two
consecutive trigger presses arm the trigger with the count at 2, and the
third press fires the forced save with the count at 3, which discards the
take — no file is written, the buffer ends empty, the count ends 0, and
the display-open signal is still sent. -/
theorem three_triggers_alone_discard (ls : LoopState) (n1 n2 n3 : ℚ)
    (hc : ls.recorder.note_on_count = 0) (h36 : ls.note36 = 0) :
    TriggerFires (drain ls [(t36, n1), (t36, n2)]) t36 ∧
    (drain ls [(t36, n1), (t36, n2)]).recorder.note_on_count = 2 ∧
    (drain ls [(t36, n1), (t36, n2), (t36, n3)]).recorder.buffer = [] ∧
    (drain ls [(t36, n1), (t36, n2), (t36, n3)]).recorder.note_on_count = 0 ∧
    (drain ls [(t36, n1), (t36, n2), (t36, n3)]).recorder.files
      = ls.recorder.files ∧
    (drain ls [(t36, n1), (t36, n2), (t36, n3)]).recorder.log_signals
      = ls.recorder.log_signals + 1 := by
  have hfree : drainTriggerFreeB ls [(t36, n1), (t36, n2)] = true := by
    rw [drainTriggerFreeB, drainTriggerFreeB, drainTriggerFreeB]
    have h1 : ¬ TriggerFires ls t36 := by
      rintro ⟨-, -, -, -, h2⟩
      omega
    have hn1 : (process_msg ls t36 n1).note36 = 1 := by
      rw [process_msg_start_nofire ls t36 n1 rfl rfl (by decide)
        (by rintro ⟨-, h2⟩; omega)]
      simp [t36, h36]
    have h2 : ¬ TriggerFires (process_msg ls t36 n1) t36 := by
      rintro ⟨-, -, -, -, hge⟩
      omega
    simp [h1, h2]
  obtain ⟨hbuf2, hcnt2, hfil2, hlog2⟩ :=
    drain_nofire [(t36, n1), (t36, n2)] ls hfree
  have hns : noteStarts [(t36, n1), (t36, n2)] = [t36, t36] := by
    simp [noteStarts, isNoteStart, t36]
  have hn2 : (drain ls [(t36, n1), (t36, n2)]).note36 = 2 := by
    rw [drain_note36_run ls _ h36, hns]
    decide
  have hT : TriggerFires (drain ls [(t36, n1), (t36, n2)]) t36 :=
    ⟨rfl, rfl, by decide, rfl, by omega⟩
  have hsplit :
      drain ls [(t36, n1), (t36, n2), (t36, n3)]
        = process_msg (drain ls [(t36, n1), (t36, n2)]) t36 n3 := by
    rw [drain_cons, drain_cons, drain_cons, drain_nil]
    rfl
  have hcnt : (drain ls [(t36, n1), (t36, n2)]).recorder.note_on_count = 2 := by
    rw [hcnt2, hc, hns]
    rfl
  rw [hsplit, process_msg_fire _ t36 n3 hT]
  have hfilesA := save_forced_files_discard
    { (drain ls [(t36, n1), (t36, n2)]).recorder with
        buffer := (drain ls [(t36, n1), (t36, n2)]).recorder.buffer ++ [(t36, n3)]
        last_input_time := n3
        note_on_count :=
          (drain ls [(t36, n1), (t36, n2)]).recorder.note_on_count + 1 }
    (by dsimp only; omega)
  have hlogA := (save_preserves
    { (drain ls [(t36, n1), (t36, n2)]).recorder with
        buffer := (drain ls [(t36, n1), (t36, n2)]).recorder.buffer ++ [(t36, n3)]
        last_input_time := n3
        note_on_count :=
          (drain ls [(t36, n1), (t36, n2)]).recorder.note_on_count + 1 }
    true).1
  exact ⟨hT, hcnt, (save_resets _ _).1, (save_resets _ _).2,
    hfilesA.trans hfil2,
    congrArg (fun n => n + 1) (hlogA.trans hlog2)⟩

/-- Witness for C10 at the freshly started recorder and press times
1, 2, 3. -/
theorem three_triggers_alone_discard_witness :
    (drain (initLS 0) [(t36, 1), (t36, 2), (t36, 3)]).recorder.files
      = (initLS 0).recorder.files ∧
    (drain (initLS 0) [(t36, 1), (t36, 2), (t36, 3)]).recorder.log_signals
      = (initLS 0).recorder.log_signals + 1 := by
  have h := three_triggers_alone_discard (initLS 0) 1 2 3 rfl rfl
  exact ⟨h.2.2.2.2.1, h.2.2.2.2.2⟩

/-- The built track has one entry per buffered event. -/
theorem buildTrackAux_length (tpb : Nat) :
    ∀ (buf : List (MidiMsg × ℚ)) (last : ℚ),
      (buildTrackAux tpb buf last).length = buf.length := by
  intro buf
  induction buf with
  | nil => intro last; rfl
  | cons p rest ih =>
      intro last
      obtain ⟨m, t⟩ := p
      simp [buildTrackAux, ih t]

/-- The built track carries copies of the buffered messages in original
arrival order. -/
theorem buildTrackAux_msgs (tpb : Nat) :
    ∀ (buf : List (MidiMsg × ℚ)) (last : ℚ),
      (buildTrackAux tpb buf last).map TrackMsg.msg = buf.map Prod.fst := by
  intro buf
  induction buf with
  | nil => intro last; rfl
  | cons p rest ih =>
      intro last
      obtain ⟨m, t⟩ := p
      simp [buildTrackAux, ih t]

/-- Entry `i` of the built track pairs the `i`-th buffered message with the
truncated tick conversion of its timestamp minus its predecessor's
(`last` standing in as predecessor of entry 0). -/
theorem buildTrackAux_getD (tpb : Nat) :
    ∀ (buf : List (MidiMsg × ℚ)) (last : ℚ) (i : Nat), i < buf.length →
      (buildTrackAux tpb buf last).getD i defTrack
        = { msg := (buf.getD i defPair).1
            time := pyInt (second2tick
              ((buf.getD i defPair).2
                - (if i = 0 then last else (buf.getD (i - 1) defPair).2))
              tpb 600000) } := by
  intro buf
  induction buf with
  | nil =>
      intro last i hi
      simp at hi
  | cons p rest ih =>
      intro last i hi
      obtain ⟨m, t⟩ := p
      cases i with
      | zero => simp [buildTrackAux]
      | succ j =>
          have hj : j < rest.length := by simpa using hi
          simp only [buildTrackAux, List.getD_cons_succ, Nat.succ_ne_zero,
            ite_false, Nat.succ_sub_one]
          rw [ih t j hj]
          cases j with
          | zero => simp
          | succ k => simp

/-- Converting a zero-second delta gives zero ticks. -/
theorem second2tick_zero (tpb tempo : Nat) : second2tick 0 tpb tempo = 0 := by
  simp [second2tick]

/-- Python `int()` of zero is zero. -/
theorem pyInt_zero : pyInt 0 = 0 := by
  simp [pyInt]

/-- C6: when the save path writes a file (more than three counted
note-starts, and the minimum-notes gate passed or bypassed by `force`),
the written track holds one copy of each buffered event in arrival order;
the first entry's tick delta is 0, and entry `i+1`'s tick delta is the
truncated seconds-to-ticks conversion of timestamp `i+1` minus timestamp
`i` at tempo 600000 µs/beat and the file's ticks-per-beat resolution. -/
theorem saved_track_spec (r : MidiRecorder) (force : Bool)
    (h3 : 3 < r.note_on_count)
    (hgate : MIN_NOTES ≤ r.note_on_count ∨ force = true) :
    (save_buffer_to_file r force).2
      = SaveOutcome.saved (buildTrack ticksPerBeat r.buffer) r.note_on_count ∧
    (buildTrack ticksPerBeat r.buffer).map TrackMsg.msg
      = r.buffer.map Prod.fst ∧
    (buildTrack ticksPerBeat r.buffer).length = r.buffer.length ∧
    (r.buffer ≠ [] →
      ((buildTrack ticksPerBeat r.buffer).getD 0 defTrack).time = 0) ∧
    (∀ i, i + 1 < r.buffer.length →
      ((buildTrack ticksPerBeat r.buffer).getD (i + 1) defTrack).time
        = pyInt (second2tick
            ((r.buffer.getD (i + 1) defPair).2 - (r.buffer.getD i defPair).2)
            ticksPerBeat 600000)) := by
  have hb1 : ¬(r.note_on_count < MIN_NOTES ∧ force = false) := by
    rintro ⟨hlt, hf⟩
    rcases hgate with hg | hg
    · exact absurd hg (by omega)
    · rw [hg] at hf
      cases hf
  refine ⟨?_, ?_, ?_, ?_, ?_⟩
  · rw [save_buffer_to_file, if_neg hb1, if_neg (by omega)]
  · exact buildTrackAux_msgs ticksPerBeat r.buffer _
  · exact buildTrackAux_length ticksPerBeat r.buffer _
  · intro hne
    obtain ⟨p, rest, hbuf⟩ := List.exists_cons_of_ne_nil hne
    obtain ⟨m, t⟩ := p
    rw [hbuf]
    show ((buildTrackAux ticksPerBeat ((m, t) :: rest) t).getD 0 defTrack).time
      = 0
    rw [buildTrackAux, List.getD_cons_zero]
    show pyInt (second2tick (t - t) ticksPerBeat 600000) = 0
    rw [sub_self, second2tick_zero, pyInt_zero]
  · intro i hi
    rw [show buildTrack ticksPerBeat r.buffer
          = buildTrackAux ticksPerBeat r.buffer
              (match r.buffer with | [] => (0 : ℚ) | (_, t) :: _ => t)
        from rfl,
      buildTrackAux_getD ticksPerBeat r.buffer _ (i + 1) hi,
      if_neg (Nat.succ_ne_zero i)]
    simp

/-- Witness for C6 at a ten-note take whose two buffered events sit one
second apart. -/
theorem saved_track_spec_witness :
    (save_buffer_to_file wRec false).2
      = SaveOutcome.saved (buildTrack ticksPerBeat wRec.buffer)
          wRec.note_on_count ∧
    ((buildTrack ticksPerBeat wRec.buffer).getD 1 defTrack).time
      = pyInt (second2tick
          ((wRec.buffer.getD 1 defPair).2 - (wRec.buffer.getD 0 defPair).2)
          ticksPerBeat 600000) := by
  have h := saved_track_spec wRec false (by decide) (Or.inl (by decide))
  exact ⟨h.1, h.2.2.2.2 0 (by decide)⟩

end MIDIListener
